import Mathlib

/-!
Shallow embedding of `src/functionapproximators/FunctionApproximatorRRRFF.cpp`
from the dmpbbo library (Random Radial/Ridge Fourier Features regression).

Real-valued Eigen matrices/vectors are embedded as Mathlib matrices over an
abstract field `α` (instantiated with `ℚ` for concrete evaluation and with `ℝ`
where the cosine function itself matters).  `MatrixXd` of shape N×D becomes
`Matrix (Fin N) (Fin D) α`, `VectorXd` of length B becomes `Fin B → α`.
Randomness in `train` (the mt19937 draw of periods and phases) is embedded by
passing the realized draws as explicit arguments.  Fallible steps (null-pointer
dereference, Eigen run-time size assertions) are embedded with `Option`.
-/

namespace DmpBbo

/-- MetaParametersRRRFF (collaborator data holder, declared outside `src/`):
hyperparameters read by `train`.  The basis-function count
`number_of_basis_functions_` is carried at the type level as the index `B` of
the approximator, so only the two real-valued fields are stored here. -/
structure MetaParametersRRRFF (α : Type) where
  gamma_ : α
  regularization_ : α

/-- ModelParametersRRRFF (collaborator data holder, declared outside `src/`):
the fitted model installed at the end of `train`, with the constructor argument
order `(linear_model, cosines_periodes, cosines_phase)` used at line 113 of the
source.  Invariant `weights.length == periods.rows == phase.length` is carried
by the shared type index `B`. -/
structure ModelParametersRRRFF (α : Type) (B D : ℕ) where
  weights_ : Fin B → α
  cosines_periodes_ : Matrix (Fin B) (Fin D) α
  cosines_phase_ : Fin B → α

/-- Modelled from the spec: `BasisFunction::Cosine::activations` (the basis
function evaluator lives in BasisFunction.cpp, which is not under `src/`).
Per the spec, `activations[i,j] = cos(periods[j,:]·inputs[i,:] + phase[j])`.
The cosine is passed as the argument `cos` so that the definition stays
executable over `ℚ` and can be instantiated with `Real.cos` over `ℝ`. -/
def BasisFunction.Cosine.activations {α : Type} [Field α] {B D N : ℕ} (cos : α → α)
    (periods : Matrix (Fin B) (Fin D) α) (phase : Fin B → α)
    (inputs : Matrix (Fin N) (Fin D) α) : Matrix (Fin N) (Fin B) α :=
  Matrix.of fun i j => cos ((∑ d, periods j d * inputs i d) + phase j)

/-- Modelled from the spec: `ModelParametersRRRFF::cosineActivations`
(ModelParametersRRRFF.cpp is not under `src/`).  Per the spec, the model
parameters object "exposes activation computation bound to its own parameters":
it applies the cosine basis evaluator with its stored periods and phase. -/
def ModelParametersRRRFF.cosineActivations {α : Type} [Field α] {B D N : ℕ}
    (m : ModelParametersRRRFF α B D) (cos : α → α)
    (inputs : Matrix (Fin N) (Fin D) α) : Matrix (Fin N) (Fin B) α :=
  BasisFunction.Cosine.activations cos m.cosines_periodes_ m.cosines_phase_ inputs

/-- The RRRFF approximator instance.  Per the spec's data model, the base class
holds at most one MetaParameters (used only for training) and at most one
ModelParameters (present iff trained). -/
structure FunctionApproximatorRRRFF (α : Type) (B D : ℕ) where
  meta_parameters : Option (MetaParametersRRRFF α)
  model_parameters : Option (ModelParametersRRRFF α B D)

/-- Modelled from the spec: the base class's `isTrained()` (FunctionApproximator
is not under `src/`): the approximator is trained iff it holds ModelParameters. -/
def FunctionApproximatorRRRFF.isTrained {α : Type} {B D : ℕ}
    (fa : FunctionApproximatorRRRFF α B D) : Bool :=
  fa.model_parameters.isSome

/-- Modelled from the spec: the base class's `setModelParameters` (not under
`src/`): atomically installs new ModelParameters, replacing any prior model. -/
def FunctionApproximatorRRRFF.setModelParameters {α : Type} {B D : ℕ}
    (fa : FunctionApproximatorRRRFF α B D) (m : ModelParametersRRRFF α B D) :
    FunctionApproximatorRRRFF α B D :=
  { fa with model_parameters := some m }

/-- `FunctionApproximatorRRRFF::clone` (source lines 61-67): constructs a new
instance from the (dynamically downcast) meta and model parameters of the
original.  The base-class constructor it delegates to is not under `src/`; per
the spec it deep-copies both held parameter objects, which under the value
semantics of this embedding is the identity on the state. -/
def FunctionApproximatorRRRFF.clone {α : Type} {B D : ℕ}
    (fa : FunctionApproximatorRRRFF α B D) : FunctionApproximatorRRRFF α B D :=
  ⟨fa.meta_parameters, fa.model_parameters⟩

/-- Matrix inverse used by the ridge solver, written explicitly (determinant
and adjugate) so that the definition is executable. -/
def ridgeMatrixInv {α : Type} [Field α] [DecidableEq α] {B : ℕ}
    (A : Matrix (Fin B) (Fin B) α) : Matrix (Fin B) (Fin B) α :=
  if A.det = 0 then 0 else A.det⁻¹ • A.adjugate

/-- Modelled from the spec: `leastSquares` (leastSquares.cpp is not under
`src/`).  Per the spec it computes the ridge-regularized closed-form minimizer
of `norm(X*w - Y)^2 + lambda*norm(w)^2`, i.e. `(X'X + lambda*I)^{-1} X' Y`,
of shape B×K.  Only the `use_offset = false` branch (the one exercised by this
file, line 110) is modelled; the offset-appending branch is not.  In the
singular `lambda = 0` case the spec allows a reportable failure; the modelled
inverse returns the zero matrix there, a case no claim exercises. -/
def leastSquares {α : Type} [Field α] [DecidableEq α] {N B K : ℕ}
    (X : Matrix (Fin N) (Fin B) α) (Y : Matrix (Fin N) (Fin K) α)
    (use_offset : Bool) (regularization : α) : Matrix (Fin B) (Fin K) α :=
  ridgeMatrixInv (X.transpose * X + regularization • (1 : Matrix (Fin B) (Fin B) α))
    * (X.transpose * Y)

/-- Embedding of the Eigen assignment `VectorXd linear_model = <B×K matrix>;`
at source line 111: assigning a dynamic matrix to a vector resizes the vector,
which passes Eigen's run-time size assertion precisely when the matrix has
exactly one column; otherwise the program aborts (embedded as `none`). -/
def vectorXdOfMatrix {α : Type} {B K : ℕ}
    (M : Matrix (Fin B) (Fin K) α) : Option (Fin B → α) :=
  if h : K = 1 then some (fun b => M b ⟨0, by omega⟩) else none

/-- `FunctionApproximatorRRRFF::train` (source lines 70-114).  The mt19937 draws
of `cosines_periodes` (Normal(0, sqrt(2*gamma)) entries) and `cosines_phase`
(Uniform(0, 2*pi) entries) are passed as the realized random values.  The
preconditions `inputs.rows == targets.rows` and
`inputs.cols == getExpectedInputDim()` (assertions at lines 79-80) are enforced
by the shared type indices `N` and `D`.  A null MetaParameters dereference or a
failed Eigen size assertion is `none`. -/
def FunctionApproximatorRRRFF.train {α : Type} [Field α] [DecidableEq α] {B D N K : ℕ}
    (cos : α → α) (fa : FunctionApproximatorRRRFF α B D)
    (inputs : Matrix (Fin N) (Fin D) α) (targets : Matrix (Fin N) (Fin K) α)
    (cosines_periodes : Matrix (Fin B) (Fin D) α) (cosines_phase : Fin B → α) :
    Option (FunctionApproximatorRRRFF α B D) :=
  if fa.isTrained then
    -- "WARNING: You may not call FunctionApproximatorRRRFF::train more than
    -- once. Doing nothing."  (warning printed, call returns with no change)
    some fa
  else
    match fa.meta_parameters with
    | none => none
    | some meta_parameters_RRRFF =>
      let proj_inputs :=
        BasisFunction.Cosine.activations cos cosines_periodes cosines_phase inputs
      let regularization := meta_parameters_RRRFF.regularization_
      let use_offset := false
      match vectorXdOfMatrix (leastSquares proj_inputs targets use_offset regularization) with
      | none => none
      | some linear_model =>
        some (fa.setModelParameters ⟨linear_model, cosines_periodes, cosines_phase⟩)

/-- `FunctionApproximatorRRRFF::predict` (source lines 116-130): if untrained,
a warning is printed and the call returns with no output (`none`); otherwise
`outputs = proj_inputs * model->weights_` with the cosine activations of the
inputs as `proj_inputs`. -/
def FunctionApproximatorRRRFF.predict {α : Type} [Field α] {B D M : ℕ}
    (cos : α → α) (fa : FunctionApproximatorRRRFF α B D)
    (inputs : Matrix (Fin M) (Fin D) α) : Option (Fin M → α) :=
  match fa.model_parameters with
  | none =>
    -- "WARNING: You may not call FunctionApproximatorRRRFF::predict if you
    -- have not trained yet. Doing nothing."
    none
  | some model => some ((model.cosineActivations cos inputs).mulVec model.weights_)

/-- The contents of the target directory of `saveGridData`, one entry per file:
its name and its contents as a list of rows of numbers (the plain numeric
matrix format of the spec). -/
structure FileSystem (α : Type) where
  files : List (String × List (List α))

/-- Flattens a matrix to the row-major list-of-rows written to a file. -/
def matrixToRows {α : Type} {m n : ℕ} (M : Matrix (Fin m) (Fin n) α) :
    List (List α) :=
  (List.finRange m).map fun i => (List.finRange n).map fun j => M i j

/-- Modelled from the spec: the `saveMatrix` writer (EigenFileIO is not under
`src/`).  Per the spec, `overwrite` controls whether an existing file is
clobbered vs. an error is raised: if the file already exists and `overwrite`
is false, the write fails (error reported, `false` returned, file system
unchanged); otherwise the file is written and `true` is returned. -/
def saveMatrixFile {α : Type} (fs : FileSystem α) (filename : String)
    (contents : List (List α)) (overwrite : Bool) : FileSystem α × Bool :=
  if fs.files.any (fun p => p.1 == filename) && !overwrite then
    (fs, false)
  else
    (⟨(filename, contents) :: fs.files.eraseP (fun p => p.1 == filename)⟩, true)

/-- Looks up the contents of a file in the directory. -/
def FileSystem.lookup {α : Type} (fs : FileSystem α) (filename : String) :
    Option (List (List α)) :=
  (fs.files.find? (fun p => p.1 == filename)).map (fun p => p.2)

/-- Modelled from the spec: `FunctionApproximator::generateInputsGrid` (the
grid-generation collaborator is not under `src/`).  Per the spec it generates a
regular grid of input points spanning `[min,max]` with the given per-dimension
sample counts: point `i` of the grid has, in dimension `k`, the coordinate
`min k + idx k * (max k - min k) / (n_samples k - 1)` where `idx` is the
multi-index of `i`. -/
def generateInputsGrid {α : Type} [Field α] {Dd : ℕ} (mn mx : Fin Dd → α)
    (n_samples_per_dim : Fin Dd → ℕ) :
    Matrix (Fin (∏ k, n_samples_per_dim k)) (Fin Dd) α :=
  Matrix.of fun i k =>
    mn k + ((finPiFinEquiv.symm i k : ℕ) : α) * (mx k - mn k)
      / (((n_samples_per_dim k : ℕ) : α) - 1)

/-- `FunctionApproximatorRRRFF::saveGridData` (source lines 132-161).  The
state of the target directory is threaded explicitly as `fs`; the function
returns the new directory state and the C++ return value, or `none` for the
null ModelParameters dereference at line 143 (reached when the approximator is
untrained, since line 140 casts `getModelParameters()` without any guard).
As in the source, the boolean results `(r1...r5).2` of the five `saveMatrix`
calls are ignored and `true` is returned unconditionally.  The in-place
column scaling of `activations_grid` at lines 151-152 is embedded as the fresh
matrix `weighted_grid`, the value the scaled array holds afterwards. -/
def FunctionApproximatorRRRFF.saveGridData {α : Type} [Field α] {B Dd : ℕ}
    (cos : α → α) (fa : FunctionApproximatorRRRFF α B Dd) (mn mx : Fin Dd → α)
    (n_samples_per_dim : Fin Dd → ℕ) (save_directory : String) (overwrite : Bool)
    (fs : FileSystem α) : Option (FileSystem α × Bool) :=
  if save_directory = "" then
    some (fs, true)
  else
    let inputs_grid := generateInputsGrid mn mx n_samples_per_dim
    match fa.model_parameters with
    | none => none
    | some model_parameters_RRRFF =>
      let activations_grid := model_parameters_RRRFF.cosineActivations cos inputs_grid
      let r1 := saveMatrixFile fs "n_samples_per_dim.txt"
        ((List.finRange Dd).map fun k => [((n_samples_per_dim k : ℕ) : α)]) overwrite
      let r2 := saveMatrixFile r1.1 "inputs_grid.txt" (matrixToRows inputs_grid) overwrite
      let r3 := saveMatrixFile r2.1 "activations_grid.txt" (matrixToRows activations_grid) overwrite
      let weights := model_parameters_RRRFF.weights_
      let weighted_grid := Matrix.of fun i b => activations_grid i b * weights b
      let r4 := saveMatrixFile r3.1 "activations_weighted_grid.txt"
        (matrixToRows weighted_grid) overwrite
      let predictions_grid : Matrix (Fin (∏ k, n_samples_per_dim k)) (Fin 1) α :=
        Matrix.of fun i _ => ∑ b, weighted_grid i b
      let r5 := saveMatrixFile r4.1 "predictions_grid.txt"
        (matrixToRows predictions_grid) overwrite
      some (r5.1, true)

/-! Concrete fixtures over `ℚ`, used to witness the theorems at explicit
inputs.  `id : ℚ → ℚ` stands in for the cosine argument where the value of the
cosine is irrelevant. -/

/-- Concrete meta parameters: gamma 1, regularization 0. -/
def mpQ : MetaParametersRRRFF ℚ := ⟨1, 0⟩

/-- Concrete model parameters with one basis function over one dimension. -/
def modelQ : ModelParametersRRRFF ℚ 1 1 :=
  ⟨fun _ => 1, Matrix.of fun _ _ => 0, fun _ => 0⟩

/-- A concrete untrained approximator (meta parameters only). -/
def faUntrainedQ : FunctionApproximatorRRRFF ℚ 1 1 := ⟨some mpQ, none⟩

/-- A concrete trained approximator. -/
def faTrainedQ : FunctionApproximatorRRRFF ℚ 1 1 := ⟨some mpQ, some modelQ⟩

/-- A concrete 1×1 input matrix. -/
def inputs1Q : Matrix (Fin 1) (Fin 1) ℚ := Matrix.of fun _ _ => 1

/-- A concrete 1×1 (single-column) target matrix. -/
def targets1Q : Matrix (Fin 1) (Fin 1) ℚ := Matrix.of fun _ _ => 1

/-- A concrete 1×2 (two-column) target matrix. -/
def targets2Q : Matrix (Fin 1) (Fin 2) ℚ := Matrix.of fun _ _ => 1

/-- A concrete empty target directory. -/
def fsEmptyQ : FileSystem ℚ := ⟨[]⟩

/-- A concrete directory in which `n_samples_per_dim.txt` already exists. -/
def fsWithSamplesQ : FileSystem ℚ := ⟨[("n_samples_per_dim.txt", [[1]])]⟩

/-- C3: a second call to `train` on an already trained approximator emits a
warning, performs no work and leaves the installed ModelParameters exactly
unchanged: the call returns the state it was given, without failure. -/
theorem train_second_call_noop {α : Type} [Field α] [DecidableEq α] {B D N K : ℕ}
    (cos : α → α) (fa : FunctionApproximatorRRRFF α B D)
    (m : ModelParametersRRRFF α B D) (h : fa.model_parameters = some m)
    (inputs : Matrix (Fin N) (Fin D) α) (targets : Matrix (Fin N) (Fin K) α)
    (ps : Matrix (Fin B) (Fin D) α) (qs : Fin B → α) :
    fa.train cos inputs targets ps qs = some fa := by
  unfold FunctionApproximatorRRRFF.train
  have ht : fa.isTrained = true := by
    simp [FunctionApproximatorRRRFF.isTrained, h]
  rw [ht]
  simp

/-- Witness for C3 at a concrete trained approximator over `ℚ`. -/
theorem train_second_call_noop_witness :
    faTrainedQ.train id inputs1Q targets1Q (Matrix.of fun _ _ => 0) (fun _ => 0)
      = some faTrainedQ :=
  train_second_call_noop id faTrainedQ modelQ rfl inputs1Q targets1Q
    (Matrix.of fun _ _ => 0) (fun _ => 0)

/-- C4: calling `predict` on an untrained approximator reports a warning and
returns without producing output (no output value, no exception, no state
change). -/
theorem predict_untrained_no_output {α : Type} [Field α] {B D M : ℕ}
    (cos : α → α) (fa : FunctionApproximatorRRRFF α B D)
    (h : fa.model_parameters = none) (inputs : Matrix (Fin M) (Fin D) α) :
    fa.predict cos inputs = none := by
  unfold FunctionApproximatorRRRFF.predict
  rw [h]

/-- Witness for C4 at a concrete untrained approximator over `ℚ`. -/
theorem predict_untrained_no_output_witness :
    faUntrainedQ.predict id inputs1Q = none :=
  predict_untrained_no_output id faUntrainedQ rfl inputs1Q

/-- C5: on a trained approximator, `predict` returns exactly the cosine
activations of the inputs (from the stored periods and phase) multiplied by the
stored weights, and the result is deterministic: any approximator holding the
same trained model produces the identical output on the same inputs. -/
theorem predict_trained_formula_deterministic {α : Type} [Field α] {B D M : ℕ}
    (cos : α → α) (fa fa₂ : FunctionApproximatorRRRFF α B D)
    (m : ModelParametersRRRFF α B D) (h : fa.model_parameters = some m)
    (h₂ : fa₂.model_parameters = fa.model_parameters)
    (inputs : Matrix (Fin M) (Fin D) α) :
    fa.predict cos inputs
      = some ((BasisFunction.Cosine.activations cos m.cosines_periodes_
          m.cosines_phase_ inputs).mulVec m.weights_)
    ∧ fa₂.predict cos inputs = fa.predict cos inputs := by
  constructor
  · unfold FunctionApproximatorRRRFF.predict
    rw [h]
    rfl
  · unfold FunctionApproximatorRRRFF.predict
    rw [h₂]

/-- Witness for C5 at a concrete trained approximator over `ℚ`. -/
theorem predict_trained_formula_deterministic_witness :
    faTrainedQ.predict id inputs1Q
      = some ((BasisFunction.Cosine.activations id modelQ.cosines_periodes_
          modelQ.cosines_phase_ inputs1Q).mulVec modelQ.weights_)
    ∧ faTrainedQ.predict id inputs1Q = faTrainedQ.predict id inputs1Q :=
  predict_trained_formula_deterministic id faTrainedQ faTrainedQ modelQ rfl rfl inputs1Q

/-- C6: `saveGridData` with an empty directory string returns `true` and
performs no filesystem writes and no other computation: the directory state is
returned unchanged, for any approximator (trained or not) and any other
arguments. -/
theorem saveGridData_empty_directory_noop {α : Type} [Field α] {B Dd : ℕ}
    (cos : α → α) (fa : FunctionApproximatorRRRFF α B Dd) (mn mx : Fin Dd → α)
    (ns : Fin Dd → ℕ) (overwrite : Bool) (fs : FileSystem α) :
    fa.saveGridData cos mn mx ns "" overwrite fs = some (fs, true) := by
  unfold FunctionApproximatorRRRFF.saveGridData
  simp

/-- C8: the cosine basis activation function satisfies
`activations[i,j] = cos(periods[j,:]·inputs[i,:] + phase[j])` for all `i, j`;
in particular, for one basis function over one dimension with period 0 and
phase 0, the activation equals `cos 0 = 1` for every input. -/
theorem cosine_activations_formula :
    (∀ {B D N : ℕ} (periods : Matrix (Fin B) (Fin D) ℝ) (phase : Fin B → ℝ)
        (inputs : Matrix (Fin N) (Fin D) ℝ) (i : Fin N) (j : Fin B),
      BasisFunction.Cosine.activations Real.cos periods phase inputs i j
        = Real.cos ((∑ d, periods j d * inputs i d) + phase j))
    ∧ (∀ {N : ℕ} (inputs : Matrix (Fin N) (Fin 1) ℝ) (i : Fin N) (j : Fin 1),
      BasisFunction.Cosine.activations Real.cos (0 : Matrix (Fin 1) (Fin 1) ℝ)
          (fun _ => 0) inputs i j = 1) := by
  constructor
  · intro B D N periods phase inputs i j
    rfl
  · intro N inputs i j
    show Real.cos ((∑ d, (0 : Matrix (Fin 1) (Fin 1) ℝ) j d * inputs i d) + 0) = 1
    simp

/-- C9: `clone` produces an independent copy in the same state as the original
(same meta parameters, same model parameters), whose `predict` output equals
the original's on identical inputs.  In this embedding states are immutable
values, so the deep copy is the identity on the state and mutating one value
can never affect another. -/
theorem clone_same_state_predict {α : Type} [Field α] {B D M : ℕ}
    (cos : α → α) (fa : FunctionApproximatorRRRFF α B D)
    (inputs : Matrix (Fin M) (Fin D) α) :
    fa.clone = fa
    ∧ fa.clone.meta_parameters = fa.meta_parameters
    ∧ fa.clone.model_parameters = fa.model_parameters
    ∧ fa.clone.predict cos inputs = fa.predict cos inputs :=
  ⟨rfl, rfl, rfl, rfl⟩

/-- C10: `saveGridData` with a non-empty directory has no trained-state guard:
on an untrained approximator (no ModelParameters) it unconditionally reaches
the null model-parameters dereference at line 143, embedded as the failing
outcome `none`, for every choice of the other arguments. -/
theorem saveGridData_untrained_null_deref {α : Type} [Field α] {B Dd : ℕ}
    (cos : α → α) (fa : FunctionApproximatorRRRFF α B Dd)
    (h : fa.model_parameters = none) (mn mx : Fin Dd → α) (ns : Fin Dd → ℕ)
    (d : String) (hd : d ≠ "") (overwrite : Bool) (fs : FileSystem α) :
    fa.saveGridData cos mn mx ns d overwrite fs = none := by
  unfold FunctionApproximatorRRRFF.saveGridData
  rw [if_neg hd, h]

/-- Witness for C10 at a concrete untrained approximator over `ℚ`. -/
theorem saveGridData_untrained_null_deref_witness :
    faUntrainedQ.saveGridData id (fun _ => 0) (fun _ => 1) (fun _ => 2)
      "./results" false fsEmptyQ = none :=
  saveGridData_untrained_null_deref id faUntrainedQ rfl (fun _ => 0) (fun _ => 1)
    (fun _ => 2) "./results" (by decide) false fsEmptyQ

/-- C1 counterexample: a concrete call to `saveGridData` on a directory where
`n_samples_per_dim.txt` already exists, with `overwrite = false`: the very
first of the five writes fails (the writer returns `false`), yet `saveGridData`
still returns success (`true`). -/
theorem saveGridData_returns_true_despite_failed_write :
    (saveMatrixFile fsWithSamplesQ "n_samples_per_dim.txt" [[1]] false).2 = false
    ∧ (faTrainedQ.saveGridData id (fun _ => 0) (fun _ => 1) (fun _ => 1)
        "./grid" false fsWithSamplesQ).map Prod.snd = some true := by
  constructor
  · rfl
  · rfl

/-- C1 amended: when the directory is non-empty and the approximator holds a
model, `saveGridData` returns `true` unconditionally — the boolean results of
the five `saveMatrix` writes are ignored, so a write failure (reported by the
writer itself) never propagates to the return value. -/
theorem saveGridData_nonempty_dir_always_true {α : Type} [Field α] {B Dd : ℕ}
    (cos : α → α) (fa : FunctionApproximatorRRRFF α B Dd)
    (m : ModelParametersRRRFF α B Dd) (h : fa.model_parameters = some m)
    (mn mx : Fin Dd → α) (ns : Fin Dd → ℕ) (d : String) (hd : d ≠ "")
    (overwrite : Bool) (fs : FileSystem α) :
    ∃ fs₂ : FileSystem α,
      fa.saveGridData cos mn mx ns d overwrite fs = some (fs₂, true) := by
  unfold FunctionApproximatorRRRFF.saveGridData
  rw [if_neg hd, h]
  exact ⟨_, rfl⟩

/-- Witness for the amended C1 at a concrete failing-write configuration. -/
theorem saveGridData_nonempty_dir_always_true_witness :
    ∃ fs₂ : FileSystem ℚ,
      faTrainedQ.saveGridData id (fun _ => 0) (fun _ => 1) (fun _ => 1)
        "./grid" false fsWithSamplesQ = some (fs₂, true) :=
  saveGridData_nonempty_dir_always_true id faTrainedQ modelQ rfl (fun _ => 0)
    (fun _ => 1) (fun _ => 1) "./grid" (by decide) false fsWithSamplesQ

/-- C2 counterexample: a concrete training call with two-column targets
(`K = 2`) on a fresh approximator does not succeed with a B×K weight matrix:
the assignment of the B×K solver result to the vector-typed `linear_model`
fails Eigen's run-time size assertion, so training aborts (`none`). -/
theorem train_two_column_targets_fails :
    faUntrainedQ.train id inputs1Q targets2Q (Matrix.of fun _ _ => 0) (fun _ => 0)
      = none := by
  rfl

/-- C2 amended: step 6 of `train` solves the regularized least-squares problem
with no intercept term, but its result is stored in a length-B vector, so
training succeeds only for single-column targets (`K = 1`), installing the
B-vector solution in the ModelParameters; for `K ≠ 1` the vector assignment
fails a run-time size assertion and no model is installed. -/
theorem train_single_column_solver {α : Type} [Field α] [DecidableEq α]
    {B D N K : ℕ} (cos : α → α) (fa : FunctionApproximatorRRRFF α B D)
    (mp : MetaParametersRRRFF α) (hm : fa.model_parameters = none)
    (hmeta : fa.meta_parameters = some mp)
    (inputs : Matrix (Fin N) (Fin D) α) (targets : Matrix (Fin N) (Fin 1) α)
    (targetsK : Matrix (Fin N) (Fin K) α) (hK : K ≠ 1)
    (ps : Matrix (Fin B) (Fin D) α) (qs : Fin B → α) :
    fa.train cos inputs targets ps qs
      = some (fa.setModelParameters
          ⟨fun b => leastSquares (BasisFunction.Cosine.activations cos ps qs inputs)
              targets false mp.regularization_ b 0, ps, qs⟩)
    ∧ fa.train cos inputs targetsK ps qs = none := by
  have ht : fa.isTrained = false := by
    simp [FunctionApproximatorRRRFF.isTrained, hm]
  constructor
  · unfold FunctionApproximatorRRRFF.train
    rw [ht, hmeta]
    simp only [Bool.false_eq_true, if_false]
    rfl
  · unfold FunctionApproximatorRRRFF.train
    rw [ht, hmeta]
    simp only [Bool.false_eq_true, if_false]
    unfold vectorXdOfMatrix
    rw [dif_neg hK]

/-- Witness for the amended C2 at concrete single- and two-column targets. -/
theorem train_single_column_solver_witness :
    faUntrainedQ.train id inputs1Q targets1Q (Matrix.of fun _ _ => 0) (fun _ => 0)
      = some (faUntrainedQ.setModelParameters
          ⟨fun b => leastSquares (BasisFunction.Cosine.activations id
              (Matrix.of fun _ _ => 0) (fun _ => 0) inputs1Q)
              targets1Q false mpQ.regularization_ b 0,
            Matrix.of fun _ _ => 0, fun _ => 0⟩)
    ∧ faUntrainedQ.train id inputs1Q targets2Q (Matrix.of fun _ _ => 0) (fun _ => 0)
      = none :=
  train_single_column_solver id faUntrainedQ mpQ rfl rfl inputs1Q targets1Q
    targets2Q (by decide) (Matrix.of fun _ _ => 0) (fun _ => 0)

/-- C7: the grid predictions persisted by `saveGridData` — each basis
function's activation column scaled by its fitted weight, then summed across
basis functions row-wise — equal the matrix-vector product of the grid
activations with the stored weights, which is exactly what `predict` returns
on the same grid points.  Stated on a fresh (empty) directory so that all five
writes succeed. -/
theorem saveGridData_predictions_match_predict {α : Type} [Field α] {B Dd : ℕ}
    (cos : α → α) (fa : FunctionApproximatorRRRFF α B Dd)
    (m : ModelParametersRRRFF α B Dd) (h : fa.model_parameters = some m)
    (mn mx : Fin Dd → α) (ns : Fin Dd → ℕ) (d : String) (hd : d ≠ "")
    (overwrite : Bool) :
    ∃ fs₂ : FileSystem α,
      fa.saveGridData cos mn mx ns d overwrite ⟨[]⟩ = some (fs₂, true)
      ∧ fs₂.lookup "predictions_grid.txt"
          = some (matrixToRows (Matrix.of fun i (_ : Fin 1) =>
              ((BasisFunction.Cosine.activations cos m.cosines_periodes_
                  m.cosines_phase_ (generateInputsGrid mn mx ns)).mulVec
                m.weights_) i))
      ∧ fa.predict cos (generateInputsGrid mn mx ns)
          = some ((BasisFunction.Cosine.activations cos m.cosines_periodes_
              m.cosines_phase_ (generateInputsGrid mn mx ns)).mulVec m.weights_) := by
  unfold FunctionApproximatorRRRFF.saveGridData FunctionApproximatorRRRFF.predict
  rw [if_neg hd, h]
  exact ⟨_, rfl, rfl, rfl⟩

/-- Witness for C7 at a concrete trained approximator over `ℚ`. -/
theorem saveGridData_predictions_match_predict_witness :
    ∃ fs₂ : FileSystem ℚ,
      faTrainedQ.saveGridData id (fun _ => 0) (fun _ => 1) (fun _ => 2)
        "./grid" true ⟨[]⟩ = some (fs₂, true)
      ∧ fs₂.lookup "predictions_grid.txt"
          = some (matrixToRows (Matrix.of fun i (_ : Fin 1) =>
              ((BasisFunction.Cosine.activations id modelQ.cosines_periodes_
                  modelQ.cosines_phase_
                  (generateInputsGrid (fun _ => 0) (fun _ => 1) (fun _ => 2))).mulVec
                modelQ.weights_) i))
      ∧ faTrainedQ.predict id (generateInputsGrid (fun _ => 0) (fun _ => 1) (fun _ => 2))
          = some ((BasisFunction.Cosine.activations id modelQ.cosines_periodes_
              modelQ.cosines_phase_
              (generateInputsGrid (fun _ => 0) (fun _ => 1) (fun _ => 2))).mulVec
              modelQ.weights_) :=
  saveGridData_predictions_match_predict id faTrainedQ modelQ rfl (fun _ => 0)
    (fun _ => 1) (fun _ => 2) "./grid" (by decide) true

end DmpBbo
